import Mathlib

/-!
Verification of the g4f-api failover core against its natural-language
specification.

The development shallowly embeds the relevant code of the repository:

* `backend/background.py` — success cache, failure ledger, provider probing
  and the probe cycle (`update_working_providers`);
* `backend/routes.py` — the failover selector (`get_nofail_params`,
  `get_nofail_params_excluding_failed`), `get_best_model_for_provider`,
  and the completion orchestrator (`post_completion`).

External collaborators that live outside the embedded sources
(`backend/dependencies.py` with the provider registry and
`BEST_MODELS_ORDERED`, the g4f library, and the network) are modelled as
explicit inputs: a `Registry` value, a default-provider resolver, the
cached public IP, and an oracle giving the outcome of each Provider
Client invocation.  Wall-clock time is an abstract `Nat` passed
explicitly; within one operation the code reads a single time value.
-/

namespace G4F

/-- One entry of the success cache: `(provider_name, model, timestamp)`
from `backend/background.py`.  The provider component is `Option String`
because `post_completion` can call `add_successful_provider` with the
request parameter `provider=None` (model given, provider omitted). -/
structure CacheEntry where
  provider : Option String
  model : String
  ts : Nat
deriving DecidableEq, Repr

/-- Constant `SUCCESS_CACHE_TTL_MINUTES` from `backend/background.py`. -/
def SUCCESS_CACHE_TTL_MINUTES : Nat := 30

/-- Function `_clean_expired_cache` from `backend/background.py`: keep entries whose
timestamp is strictly newer than `now - TTL`; over integers that is
`now < ts + TTL`, which avoids truncated subtraction on `Nat`. -/
def clean_expired (now : Nat) (cache : List CacheEntry) : List CacheEntry :=
  cache.filter (fun e => decide (now < e.ts + SUCCESS_CACHE_TTL_MINUTES))

/-- Function `add_successful_provider` from `backend/background.py`: drop any entry
for the same (provider, model) pair, prepend a fresh entry, then purge
expired entries. -/
def add_successful_provider (p : Option String) (m : String) (now : Nat)
    (cache : List CacheEntry) : List CacheEntry :=
  clean_expired now
    (⟨p, m, now⟩ :: cache.filter (fun e => decide (¬(e.provider = p ∧ e.model = m))))

/-- Function `clear_success_cache` from `backend/background.py`. -/
def clear_success_cache (_cache : List CacheEntry) : List CacheEntry := []

/-- The rejection test of the loop in `get_cached_successful_providers`:
`if model_filter and model != model_filter: continue`.  A `None` filter and
the empty-string filter are both falsy in Python, so neither rejects. -/
def reject_by_filter (mf : Option String) (m : String) : Bool :=
  match mf with
  | none => false
  | some f => if f = ("") then false else decide (m ≠ f)

/-- The accumulation loop of `get_cached_successful_providers`
(`backend/background.py`): walk the cache, skip providers already seen,
skip entries rejected by the model filter, and collect each remaining
provider once, adding it to `seen`. -/
def cached_go (mf : Option String) : List CacheEntry → List (Option String) → List (Option String)
  | [], _ => []
  | e :: rest, seen =>
    if e.provider ∈ seen then cached_go mf rest seen
    else if reject_by_filter mf e.model then cached_go mf rest seen
    else e.provider :: cached_go mf rest (e.provider :: seen)

/-- Function `get_cached_successful_providers` from `backend/background.py`: purge
expired entries, then collect distinct providers most-recent-first,
optionally restricted by a model filter. -/
def get_cached_successful_providers (mf : Option String) (now : Nat)
    (cache : List CacheEntry) : List (Option String) :=
  cached_go mf (clean_expired now cache) []

/-- The working-provider registry published by `backend/dependencies.py`
(not part of the embedded sources; the spec treats it as an external
collaborator).  `working` is `all_working_providers_map` restricted to the
data the embedded code reads: each working provider name with its
supported-model collection.  `all_working_provider_names` is its key list. -/
structure Registry where
  working : List (String × List String)

/-- Property `provider_and_models.all_working_provider_names`. -/
def Registry.names (r : Registry) : List String :=
  r.working.map (fun e => e.1)

/-- Lookup `all_working_providers_map[p].supported_models`; total by returning `[]`
for an absent key, which the embedded code only reads after a successful
membership test on `names`. -/
def Registry.supported (r : Registry) (p : String) : List String :=
  match r.working.lookup p with
  | some ms => ms
  | none => []

/-- Predicate `_is_provider_model_available` from `backend/routes.py`. -/
abbrev is_provider_model_available (r : Registry) (p m : String) : Prop :=
  p ∈ Registry.names r ∧ m ∈ Registry.supported r p

/-- The environment read by `backend/routes.py`: the externally supplied
model priority list `BEST_MODELS_ORDERED`, the g4f default-provider
resolver (`g4f.get_model_and_provider(model, None, False)[1].__name__`,
with `none` standing for its `ModelNotFoundError` or
`ProviderNotWorkingError`), the registry, and the `lru_cache`d public IP
from `get_public_ip` (`none` when the lookup failed). -/
structure G4FEnv where
  bestModels : List String
  resolveDefault : String → Option String
  registry : Registry
  publicIp : Option String

/-- Class `NofailParams` from `backend/routes.py`. -/
structure NofailParams where
  model : String
  provider : String
deriving DecidableEq, Repr

/-- The priority-1 / priority-3 scans of `get_nofail_params_excluding_failed`:
walk the cached-provider list and return the first provider that is
available for the model and whose pair is not excluded.  A `None` cached
provider never passes `_is_provider_model_available` (Python:
`None in all_working_provider_names` is false). -/
def find_cached_candidate (r : Registry) (failed : List (String × String)) (m : String) :
    List (Option String) → Option String
  | [] => none
  | none :: rest => find_cached_candidate r failed m rest
  | some p :: rest =>
    if is_provider_model_available r p m ∧ (m, p) ∉ failed then some p
    else find_cached_candidate r failed m rest

/-- The priority-4 scan of `get_nofail_params_excluding_failed`: walk
`all_working_provider_names` and return the first provider available for
the model whose pair is not excluded. -/
def find_working_candidate (r : Registry) (failed : List (String × String)) (m : String) :
    List String → Option String
  | [] => none
  | p :: rest =>
    if is_provider_model_available r p m ∧ (m, p) ∉ failed then some p
    else find_working_candidate r failed m rest

/-- The model loop of `get_nofail_params_excluding_failed`
(`backend/routes.py`): for each model, resolve the registry default
provider (skipping unresolvable models), consume the offset if positive,
and otherwise evaluate the four priority tiers, returning the first
non-excluded hit.  `none` stands for the final
`HTTPException(500, "Failed to find a model and provider to use")`. -/
def nofail_select (env : G4FEnv) (cache : List CacheEntry) (now : Nat)
    (failed : List (String × String)) : Nat → List String → Option NofailParams
  | _, [] => none
  | offset, m :: rest =>
    match env.resolveDefault m with
    | none => nofail_select env cache now failed offset rest
    | some dflt =>
      if 0 < offset then nofail_select env cache now failed (offset - 1) rest
      else
        match find_cached_candidate env.registry failed m
            (get_cached_successful_providers (some m) now cache) with
        | some p => some ⟨m, p⟩
        | none =>
          if dflt ∈ Registry.names env.registry ∧ (m, dflt) ∉ failed then some ⟨m, dflt⟩
          else
            match find_cached_candidate env.registry failed m
                (get_cached_successful_providers none now cache) with
            | some p => some ⟨m, p⟩
            | none =>
              match find_working_candidate env.registry failed m (Registry.names env.registry) with
              | some p => some ⟨m, p⟩
              | none => nofail_select env cache now failed offset rest

/-- Function `get_nofail_params_excluding_failed` from `backend/routes.py`. -/
def get_nofail_params_excluding_failed (env : G4FEnv) (cache : List CacheEntry) (now : Nat)
    (failed : List (String × String)) (offset : Nat) : Option NofailParams :=
  nofail_select env cache now failed offset env.bestModels

/-- Function `get_nofail_params` from `backend/routes.py`: textually the same loop as
`get_nofail_params_excluding_failed` minus the three `not in
failed_combinations` guards, i.e. the same function with an empty
exclusion set. -/
def get_nofail_params (env : G4FEnv) (cache : List CacheEntry) (now : Nat)
    (offset : Nat) : Option NofailParams :=
  nofail_select env cache now [] offset env.bestModels

/-- Whether `needle` is a leading segment of `hay` (character lists). -/
def chars_lead : List Char → List Char → Bool
  | [], _ => true
  | _ :: _, [] => false
  | c :: cs, d :: ds => c = d && chars_lead cs ds

/-- Whether `needle` occurs contiguously inside `hay`; the empty needle always
occurs.  Models the Python substring test `needle in hay`. -/
def chars_inside (needle : List Char) : List Char → Bool
  | [] => needle.isEmpty
  | d :: ds => chars_lead needle (d :: ds) || chars_inside needle ds

/-- Python `needle in hay` on strings. -/
def str_inside (hay needle : String) : Bool :=
  chars_inside needle.toList hay.toList

/-- Python `str.strip()` with no argument: drop leading and trailing
whitespace.  Written by structural recursion over the character list so
that terms reduce definitionally. -/
def py_strip (s : String) : String :=
  String.mk (((s.toList.dropWhile Char.isWhitespace).reverse.dropWhile
    Char.isWhitespace).reverse)

/-- Python `str.lower()`, character-wise, written over the character
list so that terms reduce definitionally. -/
def py_lower (s : String) : String :=
  String.mk (s.toList.map Char.toLower)

/-- The IP-leak test of `post_completion` (`backend/routes.py`):
`ip is not None and ip in response.lower()`. -/
def ip_flagged (env : G4FEnv) (response : String) : Bool :=
  match env.publicIp with
  | none => false
  | some ip => str_inside (py_lower response) ip

/-- Function `_sort_key` inside `get_best_model_for_provider`
(`backend/routes.py`): index in `BEST_MODELS_ORDERED`, else 999. -/
def sort_key (bestModels : List String) (m : String) : Nat :=
  if m ∈ bestModels then bestModels.indexOf m else 999

/-- Stable insertion for `sort_by_key`: place `x` before the first element
with a strictly larger key, after all elements with smaller-or-equal
keys, matching the stable sort used by `models.sort(key=_sort_key)`. -/
def insert_by_key (key : String → Nat) (x : String) : List String → List String
  | [] => [x]
  | y :: ys => if key x ≤ key y then x :: y :: ys else y :: insert_by_key key x ys

/-- Stable sort by key, modelling `models.sort(key=_sort_key)`. -/
def sort_by_key (key : String → Nat) : List String → List String
  | [] => []
  | x :: xs => insert_by_key key x (sort_by_key key xs)

/-- Structured rendering of the `HTTPException` payloads raised by
`backend/routes.py`. -/
inductive HttpDetail where
  /-- Error `HTTPException(500, "Failed to find a model and provider to use")`
  from the selector. -/
  | selectorExhausted
  /-- Error `HTTPException(500, "Failed to get a response from the provider.
  Last tried model: ... and provider: ...")`. -/
  | completionExhausted (model : String) (provider : Option String)
  /-- Error `HTTPException(422, "Provider not found: ...")`. -/
  | providerNotFound (provider : String)
  /-- Error `HTTPException(422, "No models supported by provider: ...")`. -/
  | noModelsForProvider (provider : String)
deriving DecidableEq, Repr

/-- The exceptions `post_completion` can let escape to its caller. -/
inductive PyError where
  /-- The unmodified exception raised by `chat.create`; its identity is
  carried as an abstract tag. -/
  | clientError (e : String)
  /-- Error `CustomValidationError("Unexpected response type from
  g4f.ChatCompletion.create", ...)` carrying `str(response)`. -/
  | validationFailed (rep : String)
  /-- An `HTTPException` with its status code and structured detail. -/
  | http (status : Nat) (detail : HttpDetail)
deriving DecidableEq, Repr

/-- Schema `CompletionResponse` as built by `post_completion` (the schema class
itself lives in `backend/dependencies.py`): adapted completion text,
model, and the possibly absent provider parameter. -/
structure CompletionResponse where
  completion : String
  model : String
  provider : Option String
deriving DecidableEq, Repr

/-- Outcome of one `chat.create` invocation, supplied by the Provider
Client oracle. -/
inductive CallResult where
  /-- Call `chat.create` returned a `str`. -/
  | text (s : String)
  /-- Call `chat.create` returned a non-`str` value, rendered by `str(...)`. -/
  | nonText (rep : String)
  /-- Call `chat.create` raised; the exception is carried as an abstract tag. -/
  | exn (e : String)
deriving DecidableEq, Repr

/-- Result of a `post_completion` run: a returned response or a raised
exception. -/
inductive RunResult where
  | ok (r : CompletionResponse)
  | raised (e : PyError)
deriving DecidableEq, Repr

/-- The failure ledger value `ProviderFailure` from `backend/models.py`. -/
structure ProviderFailure where
  error_type : String
  error_message : String
  tb : String
  timestamp : Nat
  model_used : String
  messages : List (String × String)
  response : Option String
deriving DecidableEq, Repr

/-- The module-level dict `provider_failures` from
`backend/background.py`, as an association list keyed by provider name
with at most one entry per key. -/
abbrev Ledger := List (String × ProviderFailure)

/-- Observable outcome of `post_completion`: the result, the final
success cache, the request-scoped `failed_combinations` set, the sequence
of Provider Client invocations made (instrumentation recording each
`chat.create` call), and the failure ledger. -/
structure RunOut where
  result : RunResult
  cache : List CacheEntry
  failed : List (String × String)
  calls : List (String × Option String)
  ledger : Ledger
deriving DecidableEq, Repr

/-- Update `failed_combinations.add((model_name, provider_name))` with set
semantics.  The annotation in `backend/routes.py` gives the set element
type `tuple[str, str]`; the branch is reachable only in fallback mode,
where the provider is never `None`, so a `None` provider leaves the set
unchanged (a `(model, None)` member could never be matched by the
selector, which only tests `(str, str)` pairs). -/
def add_failed_pair (m : String) (p : Option String) (failed : List (String × String)) :
    List (String × String) :=
  match p with
  | some pn => if (m, pn) ∈ failed then failed else (m, pn) :: failed
  | none => failed

/-- The `for attempt in range(10)` loop of `post_completion`
(`backend/routes.py`), with the remaining-iteration count first and the
current attempt index second.  The oracle receives the attempt index and
the current (model, provider).  On loop exhaustion the captured
IP-flagged response is returned (and recorded) when present, otherwise
the exhaustion `HTTPException` names the last pair tried. -/
def completion_loop (env : G4FEnv) (adapt : String → String → String)
    (oracle : Nat → String → Option String → CallResult) (now : Nat)
    (nofail : Bool) (ledger : Ledger) :
    Nat → Nat → String → Option String → List (String × String) →
    Option CompletionResponse → List CacheEntry → List (String × Option String) → RunOut
  | 0, _i, model, provider, failed, ipDet, cache, calls =>
    match ipDet with
    | some r => ⟨.ok r, add_successful_provider r.provider r.model now cache, failed, calls, ledger⟩
    | none => ⟨.raised (.http 500 (.completionExhausted model provider)), cache, failed, calls, ledger⟩
  | k + 1, i, model, provider, failed, ipDet, cache, calls =>
    match oracle i model provider with
    | .text s =>
      if py_strip s = ("") ∧ nofail = true then
        match get_nofail_params_excluding_failed env cache now (add_failed_pair model provider failed) i with
        | some nf =>
          completion_loop env adapt oracle now nofail ledger k (i + 1) nf.model
            (some nf.provider) (add_failed_pair model provider failed) ipDet cache
            (calls ++ [(model, provider)])
        | none =>
          ⟨.raised (.http 500 .selectorExhausted), cache, add_failed_pair model provider failed,
            calls ++ [(model, provider)], ledger⟩
      else
        if ip_flagged env s then
          completion_loop env adapt oracle now nofail ledger k (i + 1) model provider failed
            (match ipDet with
              | none => some ⟨adapt model s, model, provider⟩
              | some r => some r) cache
            (calls ++ [(model, provider)])
        else
          ⟨.ok ⟨adapt model s, model, provider⟩, add_successful_provider provider model now cache,
            failed, calls ++ [(model, provider)], ledger⟩
    | .nonText rep =>
      if nofail = true then
        match get_nofail_params_excluding_failed env cache now (add_failed_pair model provider failed) i with
        | some nf =>
          completion_loop env adapt oracle now nofail ledger k (i + 1) nf.model
            (some nf.provider) (add_failed_pair model provider failed) ipDet cache
            (calls ++ [(model, provider)])
        | none =>
          ⟨.raised (.http 500 .selectorExhausted), cache, add_failed_pair model provider failed,
            calls ++ [(model, provider)], ledger⟩
      else
        ⟨.raised (.validationFailed rep), cache, failed, calls ++ [(model, provider)], ledger⟩
    | .exn e =>
      if nofail = true then
        match get_nofail_params_excluding_failed env cache now (add_failed_pair model provider failed) i with
        | some nf =>
          completion_loop env adapt oracle now nofail ledger k (i + 1) nf.model
            (some nf.provider) (add_failed_pair model provider failed) ipDet cache
            (calls ++ [(model, provider)])
        | none =>
          ⟨.raised (.http 500 .selectorExhausted), cache, add_failed_pair model provider failed,
            calls ++ [(model, provider)], ledger⟩
      else
        ⟨.raised (.clientError e), cache, failed, calls ++ [(model, provider)], ledger⟩

/-- Function `get_best_model_for_provider` from `backend/routes.py`: look the
provider up in the working map (422 when absent), sort its supported
models by `_sort_key` and take the first (422 when there are none; the
emptiness test commutes with sorting). -/
def get_best_model_for_provider (env : G4FEnv) (p : String) : Except PyError String :=
  match env.registry.working.lookup p with
  | none => .error (.http 422 (.providerNotFound p))
  | some ms =>
    match sort_by_key (sort_key env.bestModels) ms with
    | [] => .error (.http 422 (.noModelsForProvider p))
    | m :: _ => .ok m

/-- Function `post_completion` from `backend/routes.py`.  The three entry modes set
the initial (model, provider) and the `nofail` flag; the request messages
and the `adapt_response` collaborator are abstracted into the oracle and
`adapt`.  The ledger is threaded through untouched, exactly as the
source, which never writes `provider_failures`. -/
def post_completion (env : G4FEnv) (adapt : String → String → String)
    (oracle : Nat → String → Option String → CallResult) (now : Nat)
    (paramsModel paramsProvider : Option String)
    (cache : List CacheEntry) (ledger : Ledger) : RunOut :=
  match paramsModel with
  | some m =>
    completion_loop env adapt oracle now false ledger 10 0 m paramsProvider [] none cache []
  | none =>
    match paramsProvider with
    | some p =>
      match get_best_model_for_provider env p with
      | .error e => ⟨.raised e, cache, [], [], ledger⟩
      | .ok m => completion_loop env adapt oracle now false ledger 10 0 m (some p) [] none cache []
    | none =>
      match get_nofail_params env cache now 0 with
      | none => ⟨.raised (.http 500 .selectorExhausted), cache, [], [], ledger⟩
      | some nf =>
        completion_loop env adapt oracle now true ledger 10 0 nf.model (some nf.provider) [] none cache []

/-- Generic association-list lookup used for Python dict reads. -/
def alist_lookup {α : Type} : List (String × α) → String → Option α
  | [], _ => none
  | e :: rest, k => if e.1 = k then some e.2 else alist_lookup rest k

/-- Write `provider_failures[name] = value`: dict write, at most one entry per
key (membership and count are faithful; Python keeps an overwritten key
at its original position, which no embedded code observes). -/
def ledger_set (l : Ledger) (k : String) (v : ProviderFailure) : Ledger :=
  (k, v) :: l.filter (fun e => decide (¬ e.1 = k))

/-- Delete `del provider_failures[name]`. -/
def ledger_del (l : Ledger) (k : String) : Ledger :=
  l.filter (fun e => decide (¬ e.1 = k))

/-- A g4f provider class as `test_provider` (`backend/background.py`)
duck-types it: a name plus the optional `supported_models` and
`default_model` attributes (`hasattr` probing). -/
structure ProbeProvider where
  name : String
  supported_models : Option (List String)
  default_model : Option String
deriving DecidableEq, Repr

/-- Outcome of the probe model-choice block in `test_provider`: either a
model name, or the `IndexError` raised by `list(...)[0]` on an empty
collection, in which case the local variable `model` is never bound. -/
inductive ModelChoice where
  | chosen (m : String)
  | indexError
deriving DecidableEq, Repr

/-- The model-choice block of `test_provider` (`backend/background.py`):
`supported_models` first, then `default_model`, then the working map
entry for the provider, then the constant `"gpt-4"`. -/
def choose_probe_model (p : ProbeProvider) (reg : String → Option (List String)) : ModelChoice :=
  match p.supported_models with
  | some l =>
    match l with
    | [] => .indexError
    | m :: _ => .chosen m
  | none =>
    match p.default_model with
    | some d => .chosen d
    | none =>
      match reg p.name with
      | some l =>
        match l with
        | [] => .indexError
        | m :: _ => .chosen m
      | none => .chosen ("gpt-4")

/-- Outcome of the probed `ai_respond` call, supplied by an oracle:
returned text, or an error classified by which `except` clause of
`test_provider` catches it, carrying the data the handler records. -/
inductive ProbeOutcome where
  | text (s : String)
  | valueError (msg tb : String)
  | timeout (tb : String)
  | otherExn (ty msg tb : String) (resp : Option String)
deriving DecidableEq, Repr

/-- The fixed probe messages of `test_provider`. -/
def probe_messages : List (String × String) := [(("user"), ("hi, how are you?"))]

/-- Function `test_provider` from `backend/background.py`, one probe: choose a
model, run the probe, classify.  `Except.ok (result, ledger)` is the
normal return; `Except.error` is an exception escaping `test_provider`.
The model choice happens inside the `try`, so its `IndexError` reaches
the generic handler, whose `ProviderFailure(... model_used=model ...)`
then reads the unbound local `model` and raises `UnboundLocalError`
out of the function. -/
def test_provider (p : ProbeProvider) (reg : String → Option (List String))
    (outcome : ProbeOutcome) (now : Nat) (ledger : Ledger) : Except String (Bool × Ledger) :=
  match choose_probe_model p reg with
  | .indexError => .error ("UnboundLocalError")
  | .chosen model =>
    match outcome with
    | .text s =>
      let result := decide (0 < (py_strip s).length)
      if result = true ∧ (alist_lookup ledger p.name).isSome then
        .ok (result, ledger_del ledger p.name)
      else
        .ok (result, ledger)
    | .valueError msg tb =>
      .ok (false, ledger_set ledger p.name
        ⟨("ValueError"), msg, tb, now, model, probe_messages, none⟩)
    | .timeout tb =>
      .ok (false, ledger_set ledger p.name
        ⟨("TimeoutError"), ("Request timed out after 5 seconds"), tb, now, model,
          probe_messages, none⟩)
    | .otherExn ty msg tb resp =>
      .ok (false, ledger_set ledger p.name ⟨ty, msg, tb, now, model, probe_messages, resp⟩)

/-- The mutable service state the probe cycle touches: the published
registry and the success cache. -/
structure ServiceState where
  registry : Registry
  success_cache : List CacheEntry

/-- The consumer loop of `update_working_providers`: collect into the
`now_working_providers` set every provider name whose queued probe result
is true (insertion-ordered set). -/
def collect_now_working (results : List (String × Bool)) : List String :=
  results.foldl
    (fun acc r => if r.2 = true then (if r.1 ∈ acc then acc else acc ++ [r.1]) else acc) []

/-- Modelled from the spec: `provider_and_models.update_model_providers`
lives in `backend/dependencies.py`, which is not among the embedded
sources.  Per the spec, the registry WorkingSet is "replaced (not
unioned)" by its argument, so the old registry is discarded wholesale. -/
def update_model_providers (_old : Registry) (newWorking : List (String × List String)) :
    Registry :=
  ⟨newWorking⟩

/-- The cycle tail of `update_working_providers`
(`backend/background.py`), given the collected per-provider results of a
completed cycle (the bounded-concurrent producer/consumer machinery is
summarized by its result list): build `now_working_providers`, index the
base catalog for those names (supported models read off the base
provider, the bridge normally rebuilt by `backend/dependencies.py`),
republish the registry, and clear the success cache. -/
def update_working_providers (base : List (String × ProbeProvider))
    (results : List (String × Bool)) (st : ServiceState) : ServiceState :=
  let nowWorking := collect_now_working results
  let newMap := nowWorking.filterMap (fun n =>
    match alist_lookup base n with
    | some pr => some (n, pr.supported_models.getD [])
    | none => none)
  { registry := update_model_providers st.registry newMap,
    success_cache := clear_success_cache st.success_cache }

/-!
Spec-side Selector (section 4.1 of the spec), written from the words of
the spec for the refinement claim about the Selector algorithm.  The
success-cache query is the filter-then-deduplicate formulation of
"providers with a cached success for this model, most-recent-first"; each
tier filters to working-set membership and model support and returns the
first hit not in `excluded`.
-/

/-- Spec side: does a cache entry match the optional model filter. -/
def spec_keep (mf : Option String) (e : CacheEntry) : Bool :=
  match mf with
  | none => true
  | some f => decide (e.model = f)

/-- Spec side: distinct elements, keeping first (most recent) occurrences,
given the already-emitted elements. -/
def dedup_go : List (Option String) → List (Option String) → List (Option String)
  | _, [] => []
  | seen, p :: rest => if p ∈ seen then dedup_go seen rest else p :: dedup_go (p :: seen) rest

/-- Spec side: `query(modelFilter?)` of the Success Cache — purge expired
entries, restrict to the filtered model, and list distinct providers
most-recent-first. -/
def spec_query (mf : Option String) (now : Nat) (cache : List CacheEntry) :
    List (Option String) :=
  dedup_go [] (((clean_expired now cache).filter (spec_keep mf)).map (fun e => e.provider))

/-- Spec side: a cached provider is usable for a model when it is a named
provider in the working set supporting that model. -/
def spec_avail (r : Registry) (q : Option String) (m : String) : Bool :=
  match q with
  | none => false
  | some p => decide (is_provider_model_available r p m)

/-- Spec side: the candidate pair is not in `excluded`. -/
def spec_not_excluded (m : String) (excl : List (String × String)) (q : Option String) : Bool :=
  match q with
  | none => false
  | some p => decide ((m, p) ∉ excl)

/-- Spec side: a cached-success tier — filter the queried providers to
working-set membership and support of the model, then return the first
hit not in `excluded`. -/
def spec_cached_tier (r : Registry) (excl : List (String × String)) (m : String)
    (l : List (Option String)) : Option String :=
  Option.join ((l.filter (fun q => spec_avail r q m)).find? (spec_not_excluded m excl))

/-- Spec side: tier 4 — any provider of the working set supporting the
model, in registry iteration order, first hit not in `excluded`. -/
def spec_working_tier (r : Registry) (excl : List (String × String)) (m : String)
    (names : List String) : Option String :=
  (names.filter (fun p => decide (is_provider_model_available r p m))).find?
    (fun p => decide ((m, p) ∉ excl))

/-- Spec side: the Selector of section 4.1 — iterate the model priority
list in order; resolve the registry default (skipping unresolvable models
without consuming the skip count); consume the skip count model-wise;
otherwise evaluate the four tiers in order; `NotFound` (`none`) only
after every model is exhausted. -/
def select_spec (env : G4FEnv) (cache : List CacheEntry) (now : Nat)
    (excl : List (String × String)) : Nat → List String → Option NofailParams
  | _, [] => none
  | skip, m :: rest =>
    match env.resolveDefault m with
    | none => select_spec env cache now excl skip rest
    | some dflt =>
      if 0 < skip then select_spec env cache now excl (skip - 1) rest
      else
        match spec_cached_tier env.registry excl m (spec_query (some m) now cache) with
        | some p => some ⟨m, p⟩
        | none =>
          if dflt ∈ Registry.names env.registry ∧ (m, dflt) ∉ excl then some ⟨m, dflt⟩
          else
            match spec_cached_tier env.registry excl m (spec_query none now cache) with
            | some p => some ⟨m, p⟩
            | none =>
              match spec_working_tier env.registry excl m (Registry.names env.registry) with
              | some p => some ⟨m, p⟩
              | none => select_spec env cache now excl skip rest

/-!
Concrete example configurations used to evaluate the embedded code on
closed inputs.
-/

/-- Environment for the explicit-mode IP-flag run: one model `m1` whose
default provider is `P1`; `P1` and `P2` working; the cached public IP is
`9.9.9.9`. -/
def exC1Env : G4FEnv :=
  ⟨["m1"], fun m => if m = ("m1") then some ("P1") else none,
    ⟨[(("P1"), ["m1"]), (("P2"), ["m1"])]⟩, some ("9.9.9.9")⟩

/-- Provider Client oracle that always returns a text containing the
public IP. -/
def exC1Oracle : Nat → String → Option String → CallResult :=
  fun _ _ _ => .text ("ip 9.9.9.9 here")

/-- Environment for the two-raises-then-success fallback run: models
`m1` (default `P1`) and `m2` (default `P3`); `P1`, `P2` support `m1`,
`P3` supports `m2`; no public IP. -/
def exC2Env : G4FEnv :=
  ⟨["m1", "m2"],
    fun m => if m = ("m1") then some ("P1") else if m = ("m2") then some ("P3") else none,
    ⟨[(("P1"), ["m1"]), (("P2"), ["m1"]), (("P3"), ["m2"])]⟩, none⟩

/-- Oracle raising on `P1` and `P2` and answering on `P3`. -/
def exC2Oracle : Nat → String → Option String → CallResult :=
  fun _ _ p =>
    if p = some ("P1") then .exn ("boom1")
    else if p = some ("P2") then .exn ("boom2")
    else .text ("hello")

/-- Environment for the fallback IP-flag run: one model `m1` with
default provider `P1`; `P1` and `P2` working and supporting `m1`; the
cached public IP is `9.9.9.9`. -/
def exC3Env : G4FEnv :=
  ⟨["m1"], fun m => if m = ("m1") then some ("P1") else none,
    ⟨[(("P1"), ["m1"]), (("P2"), ["m1"])]⟩, some ("9.9.9.9")⟩

/-- Oracle whose `P1` answer leaks the public IP while `P2` would answer
genuinely. -/
def exC3Oracle : Nat → String → Option String → CallResult :=
  fun _ _ p =>
    if p = some ("P1") then .text ("Detected 9.9.9.9 blocked") else .text ("hello")

/-! Helper lemmas about the success cache. -/

theorem add_successful_provider_head (p : Option String) (m : String) (now : Nat)
    (c : List CacheEntry) :
    (add_successful_provider p m now c).head? = some ⟨p, m, now⟩ := by
  simp [add_successful_provider, clean_expired, List.filter_cons, SUCCESS_CACHE_TTL_MINUTES]

theorem filter_pair_after_dedup (p : Option String) (m : String) (c : List CacheEntry) :
    ((c.filter (fun e => decide (¬(e.provider = p ∧ e.model = m)))).filter
      (fun e => decide (e.provider = p ∧ e.model = m))) = [] := by
  rw [List.filter_eq_nil_iff]
  intro a ha
  have h2 := (List.mem_filter.mp ha).2
  simp only [decide_eq_true_eq] at h2 ⊢
  exact h2

theorem add_successful_provider_pair_unique (p : Option String) (m : String) (t : Nat)
    (c : List CacheEntry) :
    ((add_successful_provider p m t c).filter
      (fun e => decide (e.provider = p ∧ e.model = m))).length = 1 := by
  unfold add_successful_provider clean_expired
  rw [List.filter_comm]
  simp only [List.filter_cons, decide_eq_true_eq, and_self, if_true]
  rw [filter_pair_after_dedup p m c]
  simp [SUCCESS_CACHE_TTL_MINUTES]

/-- C7: the Success Cache holds at most one live entry per (provider,
model) pair — `record(p, m)` removes any existing entry for the pair
before prepending, so recording the pair twice leaves exactly one entry
for it, positioned at the front of the recency-ordered list. -/
theorem C7_record_twice_single_front_entry (cache : List CacheEntry) (p : Option String)
    (m : String) (t1 t2 : Nat) :
    (add_successful_provider p m t2 (add_successful_provider p m t1 cache)).head?
        = some ⟨p, m, t2⟩
      ∧ ((add_successful_provider p m t2 (add_successful_provider p m t1 cache)).filter
          (fun e => decide (e.provider = p ∧ e.model = m))).length = 1 :=
  ⟨add_successful_provider_head p m t2 _, add_successful_provider_pair_unique p m t2 _⟩

/-! Helper lemmas about the Selector. -/

theorem find_cached_candidate_not_excluded (r : Registry) (failed : List (String × String))
    (m : String) (l : List (Option String)) (p : String)
    (h : find_cached_candidate r failed m l = some p) : (m, p) ∉ failed := by
  induction l with
  | nil => simp [find_cached_candidate] at h
  | cons q rest ih =>
    cases q with
    | none => exact ih (by simpa [find_cached_candidate] using h)
    | some pn =>
      rw [find_cached_candidate] at h
      split at h
      · next hc => cases h; exact hc.2
      · exact ih h

theorem find_working_candidate_not_excluded (r : Registry) (failed : List (String × String))
    (m : String) (l : List String) (p : String)
    (h : find_working_candidate r failed m l = some p) : (m, p) ∉ failed := by
  induction l with
  | nil => simp [find_working_candidate] at h
  | cons pn rest ih =>
    rw [find_working_candidate] at h
    split at h
    · next hc => cases h; exact hc.2
    · exact ih h

theorem nofail_select_not_excluded (env : G4FEnv) (cache : List CacheEntry) (now : Nat)
    (failed : List (String × String)) (models : List String) (offset : Nat) (nf : NofailParams)
    (h : nofail_select env cache now failed offset models = some nf) :
    (nf.model, nf.provider) ∉ failed := by
  induction models generalizing offset with
  | nil => simp [nofail_select] at h
  | cons m rest ih =>
    rw [nofail_select] at h
    split at h
    · exact ih _ h
    · split at h
      · exact ih _ h
      · split at h
        · next p hc =>
          cases h
          exact find_cached_candidate_not_excluded _ _ _ _ _ hc
        · split at h
          · next hc => cases h; exact hc.2
          · split at h
            · next p hc =>
              cases h
              exact find_cached_candidate_not_excluded _ _ _ _ _ hc
            · split at h
              · next p hc =>
                cases h
                exact find_working_candidate_not_excluded _ _ _ _ _ hc
              · exact ih _ h

/-- C4: the Selector never returns a (model, provider) pair that is a
member of its exclusion-set input, for every exclusion set, model
priority list, working set, success-cache state and skip count. -/
theorem C4_selector_never_returns_excluded (env : G4FEnv) (cache : List CacheEntry)
    (now : Nat) (failed : List (String × String)) (offset : Nat) (nf : NofailParams)
    (h : get_nofail_params_excluding_failed env cache now failed offset = some nf) :
    (nf.model, nf.provider) ∉ failed :=
  nofail_select_not_excluded env cache now failed env.bestModels offset nf h

/-- Witness for C4 at a concrete input: the selector returns `(m1, P1)`
for this environment, and that pair is not in the exclusion set. -/
theorem C4_selector_never_returns_excluded_witness :
    get_nofail_params_excluding_failed
        ⟨["m1"], fun m => if m = ("m1") then some ("P1") else none,
          ⟨[(("P1"), ["m1"])]⟩, none⟩ [] 0 [(("mx"), ("Px"))] 0
      = some ⟨"m1", "P1"⟩
    ∧ ((("m1"), ("P1")) : String × String) ∉ [(("mx"), ("Px"))] :=
  ⟨rfl, C4_selector_never_returns_excluded
    ⟨["m1"], fun m => if m = ("m1") then some ("P1") else none, ⟨[(("P1"), ["m1"])]⟩, none⟩
    [] 0 [(("mx"), ("Px"))] 0 ⟨"m1", "P1"⟩ rfl⟩

/-- C9: evaluation of `test_provider` at the failing input — a provider
whose `supported_models` attribute is an empty collection.  The
`IndexError` from `list(provider.supported_models)[0]` reaches the
generic handler, which reads the unbound local `model` and lets an
`UnboundLocalError` escape `test_provider`, aborting the gathered probe
cycle instead of recording a ledger entry and a failed result. -/
theorem C9_model_choice_error_propagates :
    test_provider ⟨"ProvEmpty", some [], none⟩ (fun _ => none) (.text ("hi")) 0 []
      = .error ("UnboundLocalError") := rfl

/-! Helper lemmas about the probe cycle. -/

theorem collect_now_working_fold_mem (results : List (String × Bool)) (acc : List String)
    (n : String) :
    (n ∈ results.foldl
        (fun acc r => if r.2 = true then (if r.1 ∈ acc then acc else acc ++ [r.1]) else acc) acc)
      ↔ (n ∈ acc ∨ (n, true) ∈ results) := by
  induction results generalizing acc with
  | nil => simp
  | cons r rest ih =>
    obtain ⟨rn, rb⟩ := r
    rw [List.foldl_cons, ih]
    cases rb with
    | false => simp
    | true =>
      by_cases hmem : rn ∈ acc
      · simp only [if_true, hmem, if_pos]
        constructor
        · intro h
          rcases h with h | h
          · exact Or.inl h
          · exact Or.inr (List.mem_cons_of_mem _ h)
        · intro h
          rcases h with h | h
          · exact Or.inl h
          · rcases List.mem_cons.mp h with h | h
            · cases h; exact Or.inl hmem
            · exact Or.inr h
      · simp only [if_pos, if_neg hmem, List.mem_append, List.mem_singleton]
        constructor
        · intro h
          rcases h with (h | h) | h
          · exact Or.inl h
          · exact Or.inr (by simp [h])
          · exact Or.inr (List.mem_cons_of_mem _ h)
        · intro h
          rcases h with h | h
          · exact Or.inl (Or.inl h)
          · rcases List.mem_cons.mp h with h | h
            · exact Or.inl (Or.inr (congrArg Prod.fst h))
            · exact Or.inr h

theorem alist_lookup_isSome_iff {α : Type} (l : List (String × α)) (n : String) :
    (alist_lookup l n).isSome = true ↔ n ∈ l.map (fun e => e.1) := by
  induction l with
  | nil => simp [alist_lookup]
  | cons e rest ih =>
    by_cases he : e.1 = n
    · simp [alist_lookup, he]
    · simp [alist_lookup, he, ih, Ne.symm he]

/-- C6: at the end of every completed probe cycle the published working
set is exactly the set of base providers whose probe passed in this
cycle — independent of (hence not a union with) the previous working
set — and the Success Cache is empty. -/
theorem C6_probe_cycle_replaces_and_clears (base : List (String × ProbeProvider))
    (results : List (String × Bool)) (st : ServiceState) :
    (update_working_providers base results st).success_cache = []
      ∧ ∀ n, (n ∈ Registry.names (update_working_providers base results st).registry
          ↔ ((n, true) ∈ results ∧ n ∈ base.map (fun e => e.1))) := by
  constructor
  · rfl
  · intro n
    show (n ∈ ((collect_now_working results).filterMap _).map _) ↔ _
    rw [List.mem_map]
    constructor
    · rintro ⟨b, hb, hfst⟩
      rw [List.mem_filterMap] at hb
      obtain ⟨a, ha, hfa⟩ := hb
      rcases hlk : alist_lookup base a with _ | pr
      · rw [hlk] at hfa; cases hfa
      · rw [hlk] at hfa
        cases hfa
        subst hfst
        refine ⟨?_, ?_⟩
        · have := (collect_now_working_fold_mem results [] a).mp ha
          simpa using this
        · exact (alist_lookup_isSome_iff base a).mp (by simp [hlk])
    · rintro ⟨hres, hbase⟩
      have hsome := (alist_lookup_isSome_iff base n).mpr hbase
      rcases hlk : alist_lookup base n with _ | pr
      · rw [hlk] at hsome; cases hsome
      · refine ⟨(n, pr.supported_models.getD []), ?_, rfl⟩
        rw [List.mem_filterMap]
        refine ⟨n, ?_, by rw [hlk]⟩
        exact (collect_now_working_fold_mem results [] n).mpr (Or.inr hres)

/-! Helper lemmas about the completion orchestrator. -/

theorem completion_loop_ledger (env : G4FEnv) (adapt : String → String → String)
    (oracle : Nat → String → Option String → CallResult) (now : Nat) (nofail : Bool)
    (ledger : Ledger) :
    ∀ k i m p failed ipDet cache calls,
      (completion_loop env adapt oracle now nofail ledger k i m p failed ipDet cache calls).ledger
        = ledger := by
  intro k
  induction k with
  | zero =>
    intro i m p failed ipDet cache calls
    rw [completion_loop.eq_def]
    cases ipDet <;> rfl
  | succ k ih =>
    intro i m p failed ipDet cache calls
    rw [completion_loop]
    split
    · split
      · split
        · exact ih _ _ _ _ _ _ _
        · rfl
      · split
        · exact ih _ _ _ _ _ _ _
        · rfl
    · split
      · split
        · exact ih _ _ _ _ _ _ _
        · rfl
      · rfl
    · split
      · split
        · exact ih _ _ _ _ _ _ _
        · rfl
      · rfl

theorem post_completion_ledger (env : G4FEnv) (adapt : String → String → String)
    (oracle : Nat → String → Option String → CallResult) (now : Nat)
    (paramsModel paramsProvider : Option String) (cache : List CacheEntry) (ledger : Ledger) :
    (post_completion env adapt oracle now paramsModel paramsProvider cache ledger).ledger
      = ledger := by
  unfold post_completion
  split
  · exact completion_loop_ledger _ _ _ _ _ _ _ _ _ _ _ _ _ _
  · split
    · split
      · rfl
      · exact completion_loop_ledger _ _ _ _ _ _ _ _ _ _ _ _ _ _
    · split
      · rfl
      · exact completion_loop_ledger _ _ _ _ _ _ _ _ _ _ _ _ _ _

theorem completion_loop_calls_pinned (env : G4FEnv) (adapt : String → String → String)
    (oracle : Nat → String → Option String → CallResult) (now : Nat) (ledger : Ledger)
    (m : String) (p : Option String) :
    ∀ k i failed ipDet cache calls,
      (∀ x ∈ calls, x = (m, p)) →
      ∀ x ∈ (completion_loop env adapt oracle now false ledger k i m p failed ipDet cache
        calls).calls, x = (m, p) := by
  intro k
  induction k with
  | zero =>
    intro i failed ipDet cache calls hx
    rw [completion_loop.eq_def]
    cases ipDet <;> exact hx
  | succ k ih =>
    intro i failed ipDet cache calls hx
    have hx2 : ∀ x ∈ calls ++ [(m, p)], x = (m, p) := by
      intro x hmem
      rcases List.mem_append.mp hmem with h | h
      · exact hx x h
      · simpa using h
    rw [completion_loop]
    split
    · next s _ =>
      split
      · next hc => exact absurd hc.2 (by simp)
      · split
        · exact ih _ _ _ _ _ hx2
        · exact hx2
    · split
      · next hc => exact absurd hc (by simp)
      · exact hx2
    · split
      · next hc => exact absurd hc (by simp)
      · exact hx2

theorem completion_loop_ok_cache (env : G4FEnv) (adapt : String → String → String)
    (oracle : Nat → String → Option String → CallResult) (now : Nat) (nofail : Bool)
    (ledger : Ledger) :
    ∀ k i m p failed ipDet cache calls r,
      (completion_loop env adapt oracle now nofail ledger k i m p failed ipDet cache
          calls).result = .ok r →
      (completion_loop env adapt oracle now nofail ledger k i m p failed ipDet cache
          calls).cache.head? = some ⟨r.provider, r.model, now⟩ := by
  intro k
  induction k with
  | zero =>
    intro i m p failed ipDet cache calls r h
    rw [completion_loop.eq_def] at h ⊢
    cases ipDet with
    | some r0 =>
      cases h
      exact add_successful_provider_head _ _ _ _
    | none => cases h
  | succ k ih =>
    intro i m p failed ipDet cache calls r h
    rw [completion_loop] at h ⊢
    split at h
    · split at h
      · next hc =>
        rw [if_pos hc]
        split at h
        · exact ih _ _ _ _ _ _ _ _ h
        · cases h
      · next hc =>
        rw [if_neg hc]
        split at h
        · next hf =>
          rw [if_pos hf]
          exact ih _ _ _ _ _ _ _ _ h
        · next hf =>
          rw [if_neg hf]
          cases h
          exact add_successful_provider_head _ _ _ _
    · split at h
      · next hn =>
        rw [if_pos hn]
        split at h
        · exact ih _ _ _ _ _ _ _ _ h
        · cases h
      · cases h
    · split at h
      · next hn =>
        rw [if_pos hn]
        split at h
        · exact ih _ _ _ _ _ _ _ _ h
        · cases h
      · cases h

/-- One-step unfolding of `completion_loop` when the Provider Client
returns a string. -/
theorem completion_loop_succ_text {env : G4FEnv} {adapt : String → String → String}
    {oracle : Nat → String → Option String → CallResult} {now : Nat} {nofail : Bool}
    {ledger : Ledger} {k i : Nat} {m : String} {p : Option String}
    {failed : List (String × String)} {ipDet : Option CompletionResponse}
    {cache : List CacheEntry} {calls : List (String × Option String)} {s : String}
    (hor : oracle i m p = .text s) :
    completion_loop env adapt oracle now nofail ledger (k + 1) i m p failed ipDet cache calls
      = if py_strip s = ("") ∧ nofail = true then
          (match get_nofail_params_excluding_failed env cache now (add_failed_pair m p failed) i
            with
            | some nf =>
              completion_loop env adapt oracle now nofail ledger k (i + 1) nf.model
                (some nf.provider) (add_failed_pair m p failed) ipDet cache (calls ++ [(m, p)])
            | none =>
              ⟨.raised (.http 500 .selectorExhausted), cache, add_failed_pair m p failed,
                calls ++ [(m, p)], ledger⟩)
        else if ip_flagged env s = true then
          completion_loop env adapt oracle now nofail ledger k (i + 1) m p failed
            (match ipDet with
              | none => some ⟨adapt m s, m, p⟩
              | some r => some r) cache (calls ++ [(m, p)])
        else
          ⟨.ok ⟨adapt m s, m, p⟩, add_successful_provider p m now cache, failed,
            calls ++ [(m, p)], ledger⟩ := by
  rw [completion_loop, hor]

/-- One-step unfolding of `completion_loop` when the Provider Client
returns a non-string value. -/
theorem completion_loop_succ_nonText {env : G4FEnv} {adapt : String → String → String}
    {oracle : Nat → String → Option String → CallResult} {now : Nat} {nofail : Bool}
    {ledger : Ledger} {k i : Nat} {m : String} {p : Option String}
    {failed : List (String × String)} {ipDet : Option CompletionResponse}
    {cache : List CacheEntry} {calls : List (String × Option String)} {rep : String}
    (hor : oracle i m p = .nonText rep) :
    completion_loop env adapt oracle now nofail ledger (k + 1) i m p failed ipDet cache calls
      = if nofail = true then
          (match get_nofail_params_excluding_failed env cache now (add_failed_pair m p failed) i
            with
            | some nf =>
              completion_loop env adapt oracle now nofail ledger k (i + 1) nf.model
                (some nf.provider) (add_failed_pair m p failed) ipDet cache (calls ++ [(m, p)])
            | none =>
              ⟨.raised (.http 500 .selectorExhausted), cache, add_failed_pair m p failed,
                calls ++ [(m, p)], ledger⟩)
        else
          ⟨.raised (.validationFailed rep), cache, failed, calls ++ [(m, p)], ledger⟩ := by
  rw [completion_loop, hor]

/-- One-step unfolding of `completion_loop` when the Provider Client
raises. -/
theorem completion_loop_succ_exn {env : G4FEnv} {adapt : String → String → String}
    {oracle : Nat → String → Option String → CallResult} {now : Nat} {nofail : Bool}
    {ledger : Ledger} {k i : Nat} {m : String} {p : Option String}
    {failed : List (String × String)} {ipDet : Option CompletionResponse}
    {cache : List CacheEntry} {calls : List (String × Option String)} {e : String}
    (hor : oracle i m p = .exn e) :
    completion_loop env adapt oracle now nofail ledger (k + 1) i m p failed ipDet cache calls
      = if nofail = true then
          (match get_nofail_params_excluding_failed env cache now (add_failed_pair m p failed) i
            with
            | some nf =>
              completion_loop env adapt oracle now nofail ledger k (i + 1) nf.model
                (some nf.provider) (add_failed_pair m p failed) ipDet cache (calls ++ [(m, p)])
            | none =>
              ⟨.raised (.http 500 .selectorExhausted), cache, add_failed_pair m p failed,
                calls ++ [(m, p)], ledger⟩)
        else
          ⟨.raised (.clientError e), cache, failed, calls ++ [(m, p)], ledger⟩ := by
  rw [completion_loop, hor]

/-- C10: every completion that returns a success records its (provider,
model) pair at the front of the Success Cache, regardless of mode —
including explicit mode, where the caller pinned the model and/or
provider.  Proved for every returned success, which covers the genuine
(non-empty, non-IP-flagged) ones the claim names; the last-resort
IP-flagged return is recorded as well, at source lines 240-245. -/
theorem C10_success_always_recorded (env : G4FEnv) (adapt : String → String → String)
    (oracle : Nat → String → Option String → CallResult) (now : Nat)
    (paramsModel paramsProvider : Option String) (cache : List CacheEntry) (ledger : Ledger)
    (r : CompletionResponse)
    (h : (post_completion env adapt oracle now paramsModel paramsProvider cache ledger).result
      = .ok r) :
    (post_completion env adapt oracle now paramsModel paramsProvider cache ledger).cache.head?
      = some ⟨r.provider, r.model, now⟩ := by
  unfold post_completion at h ⊢
  split at h
  · exact completion_loop_ok_cache _ _ _ _ _ _ _ _ _ _ _ _ _ _ _ h
  · split at h
    · split at h
      · cases h
      · exact completion_loop_ok_cache _ _ _ _ _ _ _ _ _ _ _ _ _ _ _ h
    · split at h
      · cases h
      · exact completion_loop_ok_cache _ _ _ _ _ _ _ _ _ _ _ _ _ _ _ h

/-- Witness for C10: an explicit-mode run (model and provider both
pinned) that succeeds, after which the pair heads the Success Cache. -/
theorem C10_success_always_recorded_witness :
    (post_completion ⟨[], fun _ => none, ⟨[]⟩, none⟩ (fun _ s => s)
        (fun _ _ _ => .text ("hello")) 7 (some ("mA")) (some ("PA")) [] []).result
      = .ok ⟨"hello", "mA", some ("PA")⟩
    ∧ (post_completion ⟨[], fun _ => none, ⟨[]⟩, none⟩ (fun _ s => s)
        (fun _ _ _ => .text ("hello")) 7 (some ("mA")) (some ("PA")) [] []).cache.head?
      = some ⟨some ("PA"), ("mA"), 7⟩ :=
  ⟨rfl, C10_success_always_recorded ⟨[], fun _ => none, ⟨[]⟩, none⟩ (fun _ s => s)
    (fun _ _ _ => .text ("hello")) 7 (some ("mA")) (some ("PA")) [] []
    ⟨"hello", "mA", some ("PA")⟩ rfl⟩

/-- C1: counterexample.  With model and provider both explicitly pinned
and a Provider Client whose text contains the public IP, `post_completion`
makes ten Provider Client invocations — not exactly one — because the
IP-flag branch loops with the same pair instead of returning; the claim
that exactly one attempt is made in explicit mode is therefore false. -/
theorem C1_explicit_mode_retries_on_ip_flag :
    (post_completion exC1Env (fun _ s => s) exC1Oracle 0 (some ("m1")) (some ("P1")) [] []).calls
      = List.replicate 10 (("m1"), some ("P1")) := rfl

/-- C1 (amended): in explicit mode every Provider Client invocation uses
exactly the pinned pair, and any exception or non-string response from
the single attempt propagates immediately and unmodified with no retry;
exactly one invocation is made whenever the first attempt raises, returns
a non-string, or returns a non-IP-flagged text — but an IP-flagged text
makes the loop retry the same pair (up to the 10-attempt cap) before the
first flagged response is returned. -/
theorem C1_explicit_mode_amended (env : G4FEnv) (adapt : String → String → String)
    (oracle : Nat → String → Option String → CallResult) (now : Nat)
    (cache : List CacheEntry) (ledger : Ledger) (m p : String) :
    (∀ x ∈ (post_completion env adapt oracle now (some m) (some p) cache ledger).calls,
        x = (m, some p))
    ∧ (∀ e, oracle 0 m (some p) = .exn e →
        post_completion env adapt oracle now (some m) (some p) cache ledger
          = ⟨.raised (.clientError e), cache, [], [(m, some p)], ledger⟩)
    ∧ (∀ rep, oracle 0 m (some p) = .nonText rep →
        post_completion env adapt oracle now (some m) (some p) cache ledger
          = ⟨.raised (.validationFailed rep), cache, [], [(m, some p)], ledger⟩)
    ∧ (∀ s, oracle 0 m (some p) = .text s → ip_flagged env s = false →
        post_completion env adapt oracle now (some m) (some p) cache ledger
          = ⟨.ok ⟨adapt m s, m, some p⟩, add_successful_provider (some p) m now cache, [],
              [(m, some p)], ledger⟩) := by
  refine ⟨?_, ?_, ?_, ?_⟩
  · intro x hx
    exact completion_loop_calls_pinned env adapt oracle now ledger m (some p) 10 0 [] none
      cache [] (by intro y hy; cases hy) x hx
  · intro e he
    show completion_loop env adapt oracle now false ledger (9 + 1) 0 m (some p) [] none cache []
      = _
    rw [completion_loop_succ_exn he, if_neg (by simp)]
    rfl
  · intro rep hrep
    show completion_loop env adapt oracle now false ledger (9 + 1) 0 m (some p) [] none cache []
      = _
    rw [completion_loop_succ_nonText hrep, if_neg (by simp)]
    rfl
  · intro s hs hf
    show completion_loop env adapt oracle now false ledger (9 + 1) 0 m (some p) [] none cache []
      = _
    rw [completion_loop_succ_text hs, if_neg (by simp), if_neg (by simp [hf])]
    rfl

/-- Witness for C1 (amended): a pinned run whose single attempt raises
propagates the exception unmodified after exactly one invocation. -/
theorem C1_explicit_mode_amended_witness :
    post_completion ⟨[], fun _ => none, ⟨[]⟩, none⟩ (fun _ s => s) (fun _ _ _ => .exn ("boom"))
        0 (some ("m")) (some ("P")) [] []
      = ⟨.raised (.clientError ("boom")), [], [], [(("m"), some ("P"))], []⟩ :=
  (C1_explicit_mode_amended ⟨[], fun _ => none, ⟨[]⟩, none⟩ (fun _ s => s)
    (fun _ _ _ => .exn ("boom")) 0 [] [] ("m") ("P")).2.1 ("boom") rfl

/-- C2: counterexample.  A fallback run in which the first two candidates
(`(m1, P1)` and `(m1, P2)`) raise and the third (`(m2, P3)`) succeeds
ends with the Failure Ledger exactly as it started — empty, not holding
two entries — because `post_completion` never writes `provider_failures`;
only the exclusion set records the two failed pairs. -/
theorem C2_no_ledger_entries_counterexample :
    post_completion exC2Env (fun _ s => s) exC2Oracle 0 none none [] []
      = ⟨.ok ⟨"hello", "m2", some ("P3")⟩, [⟨some ("P3"), ("m2"), 0⟩],
          [(("m1"), ("P2")), (("m1"), ("P1"))],
          [(("m1"), some ("P1")), (("m1"), some ("P2")), (("m2"), some ("P3"))], []⟩ := rfl

/-- C2 (amended): in fallback mode, when the Provider Client raises on an
attempt the orchestrator adds the (model, provider) pair to the exclusion
set and re-queries the Selector with skip count equal to the current
attempt index — but records nothing in the Failure Ledger, which the
orchestrator never writes (only the Health Prober does); after a run
where two candidates raised and a third succeeded the ledger is exactly
as it started. -/
theorem C2_fallback_exception_amended (env : G4FEnv) (adapt : String → String → String)
    (oracle : Nat → String → Option String → CallResult) (now : Nat) (ledger : Ledger)
    (k i : Nat) (m : String) (p : Option String) (failed : List (String × String))
    (ipDet : Option CompletionResponse) (cache : List CacheEntry)
    (calls : List (String × Option String)) (e : String)
    (h : oracle i m p = .exn e) :
    (completion_loop env adapt oracle now true ledger (k + 1) i m p failed ipDet cache calls
      = match get_nofail_params_excluding_failed env cache now (add_failed_pair m p failed) i with
        | some nf =>
          completion_loop env adapt oracle now true ledger k (i + 1) nf.model (some nf.provider)
            (add_failed_pair m p failed) ipDet cache (calls ++ [(m, p)])
        | none =>
          ⟨.raised (.http 500 .selectorExhausted), cache, add_failed_pair m p failed,
            calls ++ [(m, p)], ledger⟩)
    ∧ ∀ pm pp c0 l0, (post_completion env adapt oracle now pm pp c0 l0).ledger = l0 := by
  constructor
  · rw [completion_loop_succ_exn h, if_pos rfl]
  · intro pm pp c0 l0
    exact post_completion_ledger env adapt oracle now pm pp c0 l0

/-- Witness for C2 (amended): the first raising attempt of the concrete
two-raises run excludes `(m1, P1)` and moves to the Selector result
`(m1, P2)` at skip count 0, and the full fallback run leaves the ledger
empty. -/
theorem C2_fallback_exception_amended_witness :
    (completion_loop exC2Env (fun _ s => s) exC2Oracle 0 true [] 3 0 ("m1") (some ("P1"))
        [] none [] []
      = completion_loop exC2Env (fun _ s => s) exC2Oracle 0 true [] 2 1 ("m1") (some ("P2"))
          [(("m1"), ("P1"))] none [] [(("m1"), some ("P1"))])
    ∧ (post_completion exC2Env (fun _ s => s) exC2Oracle 0 none none [] []).ledger = [] := by
  have h := C2_fallback_exception_amended exC2Env (fun _ s => s) exC2Oracle 0 [] 2 0 ("m1")
    (some ("P1")) [] none [] [] ("boom1") rfl
  exact ⟨h.1, h.2 none none [] []⟩

/-- C3: counterexample.  In this fallback run `P1` always answers with a
text containing the public IP while the Selector would offer the working
candidate `(m1, P2)` once `(m1, P1)` is excluded (second conjunct) — yet
the orchestrator burns all ten attempts on `P1` (the pair is neither
excluded nor is the Selector re-queried) and returns the flagged
response, so it does not "continue trying other candidates". -/
theorem C3_same_pair_retried_counterexample :
    post_completion exC3Env (fun _ s => s) exC3Oracle 0 none none [] []
      = ⟨.ok ⟨"Detected 9.9.9.9 blocked", "m1", some ("P1")⟩, [⟨some ("P1"), ("m1"), 0⟩], [],
          List.replicate 10 (("m1"), some ("P1")), []⟩
    ∧ get_nofail_params_excluding_failed exC3Env [] 0 [(("m1"), ("P1"))] 0
      = some ⟨"m1", "P2"⟩ :=
  ⟨rfl, rfl⟩

/-- C3 (amended): in fallback mode an IP-flagged text is not returned
immediately — only the first flagged response is remembered and the loop
continues with the same (model, provider) pair, neither excluding it nor
re-querying the Selector; if all attempts end with no genuine success and
a last-resort response was captured, its pair is recorded in the Success
Cache and it is returned; when instead the Selector exhausts candidates
mid-loop, that exhaustion error propagates and the last-resort response
is lost; otherwise the run fails with an exhaustion error naming the last
model and provider tried. -/
theorem C3_ip_flag_amended (env : G4FEnv) (adapt : String → String → String)
    (oracle : Nat → String → Option String → CallResult) (now : Nat) (ledger : Ledger) :
    (∀ (k i : Nat) m p failed ipDet cache calls s,
        oracle i m p = .text s → py_strip s ≠ ("") → ip_flagged env s = true →
        completion_loop env adapt oracle now true ledger (k + 1) i m p failed ipDet cache calls
          = completion_loop env adapt oracle now true ledger k (i + 1) m p failed
              (match ipDet with
                | none => some ⟨adapt m s, m, p⟩
                | some r => some r) cache (calls ++ [(m, p)]))
    ∧ (∀ (i : Nat) m p failed cache calls r,
        completion_loop env adapt oracle now true ledger 0 i m p failed (some r) cache calls
          = ⟨.ok r, add_successful_provider r.provider r.model now cache, failed, calls, ledger⟩)
    ∧ (∀ (i : Nat) m p failed cache calls,
        completion_loop env adapt oracle now true ledger 0 i m p failed none cache calls
          = ⟨.raised (.http 500 (.completionExhausted m p)), cache, failed, calls, ledger⟩)
    ∧ (∀ (k i : Nat) m p failed ipDet cache calls e,
        oracle i m p = .exn e →
        get_nofail_params_excluding_failed env cache now (add_failed_pair m p failed) i = none →
        completion_loop env adapt oracle now true ledger (k + 1) i m p failed ipDet cache calls
          = ⟨.raised (.http 500 .selectorExhausted), cache, add_failed_pair m p failed,
              calls ++ [(m, p)], ledger⟩) := by
  refine ⟨?_, ?_, ?_, ?_⟩
  · intro k i m p failed ipDet cache calls s hs htrim hf
    rw [completion_loop_succ_text hs, if_neg (by simp [htrim]), if_pos hf]
  · intro i m p failed cache calls r
    rfl
  · intro i m p failed cache calls
    rfl
  · intro k i m p failed ipDet cache calls e he hsel
    rw [completion_loop_succ_exn he, if_pos rfl, hsel]

/-- Witness for C3 (amended): the first attempt of the concrete fallback
run returns a flagged text, and the loop steps to the same pair with the
response captured as the last resort. -/
theorem C3_ip_flag_amended_witness :
    completion_loop exC3Env (fun _ s => s) exC3Oracle 0 true [] 1 0 ("m1") (some ("P1"))
        [] none [] []
      = completion_loop exC3Env (fun _ s => s) exC3Oracle 0 true [] 0 1 ("m1") (some ("P1"))
          [] (some ⟨"Detected 9.9.9.9 blocked", "m1", some ("P1")⟩) []
          [(("m1"), some ("P1"))] :=
  (C3_ip_flag_amended exC3Env (fun _ s => s) exC3Oracle 0 []).1 0 0 ("m1") (some ("P1"))
    [] none [] [] ("Detected 9.9.9.9 blocked") rfl (by decide) rfl

/-! Refinement lemmas: the spec-side Selector equals the code. -/

theorem cached_go_eq_dedup (mf : Option String)
    (hmf : ∀ e : CacheEntry, reject_by_filter mf e.model = !(spec_keep mf e)) :
    ∀ (l : List CacheEntry) (seen : List (Option String)),
      cached_go mf l seen
        = dedup_go seen ((l.filter (spec_keep mf)).map (fun e => e.provider)) := by
  intro l
  induction l with
  | nil => intro seen; rfl
  | cons e rest ih =>
    intro seen
    by_cases hkeep : spec_keep mf e = true
    · have hrej : reject_by_filter mf e.model = false := by rw [hmf e, hkeep]; rfl
      by_cases hseen : e.provider ∈ seen
      · rw [cached_go, if_pos hseen, List.filter_cons, if_pos hkeep, List.map_cons, dedup_go,
          if_pos hseen, ih]
      · rw [cached_go, if_neg hseen, if_neg (by simp [hrej]), List.filter_cons, if_pos hkeep,
          List.map_cons, dedup_go, if_neg hseen, ih]
    · have hrej : reject_by_filter mf e.model = true := by
        rw [hmf e, Bool.eq_false_iff.mpr hkeep]; rfl
      by_cases hseen : e.provider ∈ seen
      · rw [cached_go, if_pos hseen, List.filter_cons, if_neg hkeep, ih]
      · rw [cached_go, if_neg hseen, if_pos (by simp [hrej]), List.filter_cons, if_neg hkeep, ih]

theorem get_cached_eq_spec_query_none (now : Nat) (cache : List CacheEntry) :
    get_cached_successful_providers none now cache = spec_query none now cache := by
  unfold get_cached_successful_providers spec_query
  exact cached_go_eq_dedup none (fun e => rfl) _ []

theorem get_cached_eq_spec_query_some (f : String) (hf : f ≠ ("")) (now : Nat)
    (cache : List CacheEntry) :
    get_cached_successful_providers (some f) now cache = spec_query (some f) now cache := by
  unfold get_cached_successful_providers spec_query
  exact cached_go_eq_dedup (some f)
    (fun e => by simp [reject_by_filter, spec_keep, hf, decide_not]) _ []

theorem find_cached_candidate_eq_spec_tier (r : Registry) (excl : List (String × String))
    (m : String) (l : List (Option String)) :
    find_cached_candidate r excl m l = spec_cached_tier r excl m l := by
  induction l with
  | nil => rfl
  | cons q rest ih =>
    cases q with
    | none =>
      rw [find_cached_candidate, ih]
      unfold spec_cached_tier
      rw [List.filter_cons, if_neg (by simp [spec_avail])]
    | some p =>
      by_cases ha : is_provider_model_available r p m
      · by_cases hx : (m, p) ∈ excl
        · rw [find_cached_candidate, if_neg (by simp [hx]), ih]
          unfold spec_cached_tier
          rw [List.filter_cons, if_pos (by simp [spec_avail, ha]),
            List.find?_cons_of_neg _ (by simp [spec_not_excluded, hx])]
        · rw [find_cached_candidate, if_pos ⟨ha, hx⟩]
          unfold spec_cached_tier
          rw [List.filter_cons, if_pos (by simp [spec_avail, ha]),
            List.find?_cons_of_pos _ (by simp [spec_not_excluded, hx])]
          rfl
      · rw [find_cached_candidate, if_neg (by simp [ha]), ih]
        unfold spec_cached_tier
        rw [List.filter_cons, if_neg (by simp [spec_avail, ha])]

theorem find_working_candidate_eq_spec_tier (r : Registry) (excl : List (String × String))
    (m : String) (l : List String) :
    find_working_candidate r excl m l = spec_working_tier r excl m l := by
  induction l with
  | nil => rfl
  | cons p rest ih =>
    by_cases ha : is_provider_model_available r p m
    · by_cases hx : (m, p) ∈ excl
      · rw [find_working_candidate, if_neg (by simp [hx]), ih]
        unfold spec_working_tier
        rw [List.filter_cons, if_pos (by simp [ha]),
          List.find?_cons_of_neg _ (by simp [hx])]
      · rw [find_working_candidate, if_pos ⟨ha, hx⟩]
        unfold spec_working_tier
        rw [List.filter_cons, if_pos (by simp [ha]),
          List.find?_cons_of_pos _ (by simp [hx])]
    · rw [find_working_candidate, if_neg (by simp [ha]), ih]
      unfold spec_working_tier
      rw [List.filter_cons, if_neg (by simp [ha])]

theorem select_spec_eq_nofail_select (env : G4FEnv) (cache : List CacheEntry) (now : Nat)
    (excl : List (String × String)) :
    ∀ (models : List String), (∀ m ∈ models, m ≠ ("")) → ∀ skip,
      select_spec env cache now excl skip models = nofail_select env cache now excl skip models := by
  intro models
  induction models with
  | nil => intro _ skip; rfl
  | cons m rest ih =>
    intro hne skip
    have hm : m ≠ ("") := hne m (List.mem_cons_self m rest)
    have hrest : ∀ x ∈ rest, x ≠ ("") := fun x hx => hne x (List.mem_cons_of_mem _ hx)
    rw [select_spec, nofail_select]
    split
    · exact ih hrest skip
    · rename_i dflt hrd
      by_cases hskip : 0 < skip
      · rw [if_pos hskip, if_pos hskip]
        exact ih hrest (skip - 1)
      · rw [if_neg hskip, if_neg hskip,
          ← get_cached_eq_spec_query_some m hm now cache,
          ← get_cached_eq_spec_query_none now cache,
          ← find_cached_candidate_eq_spec_tier env.registry excl m
            (get_cached_successful_providers (some m) now cache),
          ← find_cached_candidate_eq_spec_tier env.registry excl m
            (get_cached_successful_providers none now cache),
          ← find_working_candidate_eq_spec_tier env.registry excl m
            (Registry.names env.registry)]
        split
        · rfl
        · by_cases h2 : dflt ∈ Registry.names env.registry ∧ (m, dflt) ∉ excl
          · rw [if_pos h2, if_pos h2]
          · rw [if_neg h2, if_neg h2]
            split
            · rfl
            · split
              · rfl
              · exact ih hrest skip

/-- C5: the Selector implements the tiered algorithm of the spec — models
in fixed priority order, default-provider resolution first (unresolvable
models are skipped without consuming the skip count), model-wise skip
count consumption, then the four tiers (cached successes for this model
most-recent-first, the working default provider, cached successes for any
model most-recent-first filtered to support of this model, then any
working provider supporting the model), the first non-excluded hit, and
`NotFound` only after all models are exhausted.  Stated as an equality
with the spec-side Selector written from the words of section 4.1, for
model priority lists without the empty name (the code treats an
empty-string model filter as no filter, Python falsiness). -/
theorem C5_selector_matches_spec (env : G4FEnv) (cache : List CacheEntry) (now : Nat)
    (excl : List (String × String)) (skip : Nat)
    (h : ∀ m ∈ env.bestModels, m ≠ ("")) :
    select_spec env cache now excl skip env.bestModels
      = get_nofail_params_excluding_failed env cache now excl skip :=
  select_spec_eq_nofail_select env cache now excl env.bestModels h skip

/-- Witness for C5 at a concrete environment with a populated cache: the
model priority list has no empty name, and both selectors agree. -/
theorem C5_selector_matches_spec_witness :
    (∀ m ∈ exC2Env.bestModels, m ≠ (""))
    ∧ select_spec exC2Env [⟨some ("P2"), ("m1"), 5⟩, ⟨some ("P9"), ("m1"), 1⟩] 6
        [(("m1"), ("P2"))] 0 exC2Env.bestModels
      = get_nofail_params_excluding_failed exC2Env
          [⟨some ("P2"), ("m1"), 5⟩, ⟨some ("P9"), ("m1"), 1⟩] 6 [(("m1"), ("P2"))] 0 :=
  ⟨by decide, C5_selector_matches_spec exC2Env
    [⟨some ("P2"), ("m1"), 5⟩, ⟨some ("P9"), ("m1"), 1⟩] 6 [(("m1"), ("P2"))] 0 (by decide)⟩

end G4F
